import Mathlib

/-
  Verification of the BACnet-Arduino library (object registry, property
  dispatch, analog/binary value objects, RS-485 transceiver helpers).

  Floating-point values of the C++ sources are modelled as rationals: the
  code under verification performs only order comparisons, negation-free
  linear arithmetic and integer truncation on them, and every concrete
  value appearing in the spec scenarios is an integer; rounding of
  IEEE-754 addition or multiplication plays no role in any claim here.
-/

namespace BACnetArduino

/-! ### Analog Value object (src/src/BACnetAnalogValue.cpp) -/

/-- State of a BACnetAnalogValue object: present value, previous value,
the clamping bounds and the optional analog input pin (negative = none).
Mirrors the fields of class BACnetAnalogValue that the behaviour of
setValue, setMinValue, setMaxValue and readPin depends on. -/
structure AVState where
  present_value : ℚ
  previous_value : ℚ
  min_value : ℚ
  max_value : ℚ
  pin : ℤ
  deriving DecidableEq

/-- Constructor defaults of BACnetAnalogValue: present 0.0, previous 0.0,
min 0.0, max 100.0, pin -1. -/
def AVState.init : AVState :=
  { present_value := 0, previous_value := 0, min_value := 0, max_value := 100, pin := -1 }

/-- BACnetAnalogValue::setValue: clamps the argument to the bounds with two
sequential conditional assignments, then shifts present into previous and
stores the clamped argument. -/
def AVState.setValue (s : AVState) (value : ℚ) : AVState :=
  let v1 := if value < s.min_value then s.min_value else value
  let v2 := if v1 > s.max_value then s.max_value else v1
  { s with previous_value := s.present_value, present_value := v2 }

/-- BACnetAnalogValue::getValue returns the stored present value. -/
def AVState.getValue (s : AVState) : ℚ := s.present_value

/-- BACnetAnalogValue::setMinValue: stores the new minimum, then re-clamps
the present value through setValue only when it fell below the new minimum. -/
def AVState.setMinValue (s : AVState) (min : ℚ) : AVState :=
  let s1 := { s with min_value := min }
  if s1.present_value < s1.min_value then s1.setValue s1.min_value else s1

/-- BACnetAnalogValue::setMaxValue: stores the new maximum, then re-clamps
the present value through setValue only when it exceeded the new maximum. -/
def AVState.setMaxValue (s : AVState) (max : ℚ) : AVState :=
  let s1 := { s with max_value := max }
  if s1.present_value > s1.max_value then s1.setValue s1.max_value else s1

/-- C truncation of a rational toward zero, as a float-to-long cast does. -/
def cLong (q : ℚ) : ℤ := Int.tdiv q.num q.den

/-- Arduino map() over C long arithmetic with truncating division. -/
def arduinoMap (x in_min in_max out_min out_max : ℤ) : ℤ :=
  Int.tdiv ((x - in_min) * (out_max - out_min)) (in_max - in_min) + out_min

/-- BACnetAnalogValue::readPin: when a pin is configured, maps the raw ADC
sample (passed here as the environment input the code obtains from
analogRead) from 0..1023 onto the scaled bounds and stores it through
setValue; without a pin it does nothing. -/
def AVState.readPin (s : AVState) (raw : ℤ) : AVState :=
  if s.pin ≥ 0 then
    s.setValue ((arduinoMap raw 0 1023 (cLong (s.min_value * 100)) (cLong (s.max_value * 100)) : ℚ) / 100)
  else s

/-- The clamping invariant of the spec: the present value lies between the
bounds. -/
def AVState.inRange (s : AVState) : Prop :=
  s.min_value ≤ s.present_value ∧ s.present_value ≤ s.max_value

instance (s : AVState) : Decidable s.inRange := by
  unfold AVState.inRange; infer_instance

/-! ### Binary Value object (src/src/BACnetBinaryValue.cpp) -/

/-- BACnet binary present-value encoding: BINARY_INACTIVE. -/
def BINARY_INACTIVE : Nat := 0

/-- BACnet binary present-value encoding: BINARY_ACTIVE. -/
def BINARY_ACTIVE : Nat := 1

/-- Arduino pin mode constant OUTPUT. -/
def OUTPUT_MODE : Nat := 1

/-- The digital pins of the board, as a map from pin number to level. -/
def Pins : Type := Nat → Bool

/-- PIN_WRITE and digitalWrite: set one pin level, leave the others. -/
def pinWrite (pins : Pins) (pin : Nat) (active : Bool) : Pins :=
  fun p => if p = pin then active else pins p

/-- State of a BACnetBinaryValue object: present value, previous value,
optional pin (negative = none) and pin mode, the fields that setValue,
readPin and writePin depend on. -/
structure BVState where
  present_value : Nat
  previous_value : Nat
  pin : ℤ
  pin_mode : Nat
  deriving DecidableEq

/-- BACnetBinaryValue::writePin: drive the configured output pin to the
level of the present value. -/
def BVState.writePin (s : BVState) (pins : Pins) : Pins :=
  if s.pin ≥ 0 ∧ s.pin_mode = OUTPUT_MODE then
    pinWrite pins s.pin.toNat (s.present_value = BINARY_ACTIVE)
  else pins

/-- BACnetBinaryValue::setValue: shift present into previous, store the new
value, then drive the pin when one is configured as output. -/
def BVState.setValue (s : BVState) (pins : Pins) (value : Nat) : BVState × Pins :=
  let s1 := { s with previous_value := s.present_value, present_value := value }
  if s1.pin ≥ 0 ∧ s1.pin_mode = OUTPUT_MODE then (s1, s1.writePin pins) else (s1, pins)

/-- BACnetBinaryValue::getValue returns the stored present value. -/
def BVState.getValue (s : BVState) : Nat := s.present_value

/-- BACnetAnalogValue::getObjectType returns the constant
OBJECT_ANALOG_VALUE = 2 defined at the top of BACnetAnalogValue.cpp. -/
def AVState.getObjectType (_ : AVState) : Nat := 2

/-- BACnetBinaryValue::getObjectType returns the constant
OBJECT_BINARY_VALUE = 5 defined at the top of BACnetBinaryValue.cpp. -/
def BVState.getObjectType (_ : BVState) : Nat := 5

/-! ### Tier configuration (src/src/BACnetConfig.h) and
     BACnetDevice::isObjectTypeAvailable (src/src/BACnetDevice.cpp) -/

/-- BACNET_OBJECT_ANALOG_INPUT as a function of the board tier: enabled
from Tier 2 upward. -/
def BACNET_OBJECT_ANALOG_INPUT (tier : Nat) : Bool := tier ≥ 2

/-- BACNET_OBJECT_ANALOG_OUTPUT as a function of the board tier: enabled
from Tier 2 upward. -/
def BACNET_OBJECT_ANALOG_OUTPUT (tier : Nat) : Bool := tier ≥ 2

/-- BACNET_OBJECT_BINARY_INPUT as a function of the board tier: enabled
from Tier 2 upward. -/
def BACNET_OBJECT_BINARY_INPUT (tier : Nat) : Bool := tier ≥ 2

/-- BACNET_OBJECT_BINARY_OUTPUT as a function of the board tier: enabled
from Tier 2 upward. -/
def BACNET_OBJECT_BINARY_OUTPUT (tier : Nat) : Bool := tier ≥ 2

/-- BACNET_OBJECT_MULTI_STATE_VALUE as a function of the board tier:
enabled from Tier 2 upward. -/
def BACNET_OBJECT_MULTI_STATE_VALUE (tier : Nat) : Bool := tier ≥ 2

/-- BACNET_OBJECT_ANALOG_VALUE: enabled on every tier. -/
def BACNET_OBJECT_ANALOG_VALUE (_ : Nat) : Bool := true

/-- BACNET_OBJECT_BINARY_VALUE: enabled on every tier. -/
def BACNET_OBJECT_BINARY_VALUE (_ : Nat) : Bool := true

/-- BACnetDevice::isObjectTypeAvailable, parameterised by the board tier
the flags of BACnetConfig.h are expanded for. The source switch lists the
label 19 twice (once for OBJECT_BINARY_VALUE, once for
OBJECT_MULTI_STATE_VALUE); the first occurrence is kept here, so 19 maps
to the Binary-Value flag and only 13 and 14 reach the multi-state flag. -/
def isObjectTypeAvailable (tier : Nat) (object_type : Nat) : Bool :=
  if object_type = 1 then BACNET_OBJECT_ANALOG_INPUT tier
  else if object_type = 2 then BACNET_OBJECT_ANALOG_OUTPUT tier
  else if object_type = 3 then BACNET_OBJECT_ANALOG_VALUE tier
  else if object_type = 4 then BACNET_OBJECT_BINARY_INPUT tier
  else if object_type = 5 then BACNET_OBJECT_BINARY_OUTPUT tier
  else if object_type = 19 then BACNET_OBJECT_BINARY_VALUE tier
  else if object_type = 13 ∨ object_type = 14 then BACNET_OBJECT_MULTI_STATE_VALUE tier
  else false

/-! ### Object registry (src/src/BACnetDevice.cpp: addObject, removeObject) -/

/-- A registered object as the registry sees it: a pointer to a
BACnetObject. Distinct id values stand for distinct addresses; instance is
the object's BACnet instance number. -/
structure ObjRef where
  id : Nat
  instance_number : Nat
  deriving DecidableEq

/-- BACnetDevice::addObject over the contiguous occupied prefix of the
object table: a null pointer is rejected, a full table (count at the tier
capacity MAX_BACNET_OBJECTS, here the parameter cap) is rejected, and
otherwise the object is appended at the next free index. Returns the bool
result of the call together with the new table. -/
def addObject (cap : Nat) (objs : List ObjRef) (p : Option ObjRef) : Bool × List ObjRef :=
  match p with
  | none => (false, objs)
  | some o => if objs.length ≥ cap then (false, objs) else (true, objs ++ [o])

/-- The scan-and-shift loop of BACnetDevice::removeObject: the first entry
equal to the argument is dropped and every later entry moves down one slot. -/
def eraseFirstObj : List ObjRef → ObjRef → List ObjRef
  | [], _ => []
  | x :: xs, o => if x = o then xs else x :: eraseFirstObj xs o

/-- BACnetDevice::removeObject: null pointers are ignored, otherwise the
first matching entry is removed and the tail is compacted. -/
def removeObject (objs : List ObjRef) (p : Option ObjRef) : List ObjRef :=
  match p with
  | none => objs
  | some o => eraseFirstObj objs o

/-- Modelled from the spec: the C++ registry in src/src/BACnetDevice.cpp
has no instance-to-index operation (only the old C Binary-Value table in
extras has one); section 4.3 of the spec requires a stable mapping
consistent with insertion order, so the index of an instance is the
position of the first object carrying it in the insertion-ordered table. -/
def instance_to_index (objs : List ObjRef) (inst : Nat) : Option Nat :=
  objs.findIdx? (fun o => o.instance_number = inst)

/-! ### Old C Binary Value object table and write handler
     (src/extras/old_c_implementation/bv.c) -/

/-- One row of the static Object_List of bv.c. -/
structure ObjectData where
  object_id : Nat
  object_name : String
  pin : Nat
  is_output : Bool
  deriving DecidableEq

/-- The static Object_List of bv.c: five input rows on pins D3..D7, five
output rows on pins D8..D12, and the LED output row, with the pin numbers
of pin_config.h. -/
def Object_List : List ObjectData :=
  [ ⟨0, "D3", 3, false⟩, ⟨1, "D4", 4, false⟩, ⟨2, "D5", 5, false⟩,
    ⟨3, "D6", 6, false⟩, ⟨4, "D7", 7, false⟩,
    ⟨5, "D8", 8, true⟩, ⟨6, "D9", 9, true⟩, ⟨7, "D10", 10, true⟩,
    ⟨8, "D11", 11, true⟩, ⟨9, "D12", 12, true⟩,
    ⟨99, "LED", 13, true⟩ ]

/-- Object_List_Element: first row whose object_id equals the instance. -/
def Object_List_Element (object_instance : Nat) : Option ObjectData :=
  Object_List.find? (fun o => o.object_id = object_instance)

/-- Binary_Value_Valid_Instance: the instance appears in the table. -/
def Binary_Value_Valid_Instance (object_instance : Nat) : Bool :=
  (Object_List_Element object_instance).isSome

/-- Binary_Value_Present_Value: reads the row's pin; missing instances
read as BINARY_INACTIVE. -/
def Binary_Value_Present_Value (pins : Pins) (object_instance : Nat) : Nat :=
  match Object_List_Element object_instance with
  | some o => if pins o.pin then BINARY_ACTIVE else BINARY_INACTIVE
  | none => BINARY_INACTIVE

/-- Binary_Value_Present_Value_Set: only rows configured as outputs write
their pin and report success; input rows and missing instances report
false and leave the pins alone. -/
def Binary_Value_Present_Value_Set (pins : Pins) (object_instance value : Nat) :
    Bool × Pins :=
  match Object_List_Element object_instance with
  | some o =>
      if o.is_output then (true, pinWrite pins o.pin (value = BINARY_ACTIVE))
      else (false, pins)
  | none => (false, pins)

/-- BACnet error classes used by the bv.c handlers. -/
inductive ErrorClass where
  | object
  | property
  deriving DecidableEq

/-- BACnet error codes used by the bv.c handlers. -/
inductive ErrorCode where
  | unknownObject
  | valueOutOfRange
  | writeAccessDenied
  | invalidDataType
  | propertyIsNotAnArray
  | unknownProperty
  deriving DecidableEq

/-- Property identifiers of the external bacenum.h used by bv.c, at their
standard BACnet values. -/
def PROP_OBJECT_IDENTIFIER : Nat := 75

/-- Property identifier object-name. -/
def PROP_OBJECT_NAME : Nat := 77

/-- Property identifier object-type. -/
def PROP_OBJECT_TYPE : Nat := 79

/-- Property identifier present-value. -/
def PROP_PRESENT_VALUE : Nat := 85

/-- Property identifier status-flags. -/
def PROP_STATUS_FLAGS : Nat := 111

/-- Property identifier event-state. -/
def PROP_EVENT_STATE : Nat := 36

/-- Property identifier out-of-service. -/
def PROP_OUT_OF_SERVICE : Nat := 81

/-- The whole-value array index sentinel BACNET_ARRAY_ALL = 0xFFFFFFFF. -/
def BACNET_ARRAY_ALL : Nat := 4294967295

/-- Application tag for enumerated values in the external codec. -/
def BACNET_APPLICATION_TAG_ENUMERATED : Nat := 9

/-- A decoded application value as bv.c reads it: the declared tag and the
Enumerated member of the value union (the only member the handler reads). -/
structure BACnetAppValue where
  tag : Nat
  enumerated : Nat
  deriving DecidableEq

/-- The fields of BACNET_WRITE_PROPERTY_DATA that
Binary_Value_Write_Property branches on. -/
structure WPData where
  object_instance : Nat
  object_property : Nat
  array_index : Nat
  deriving DecidableEq

/-- Outcome of Binary_Value_Write_Property: the bool status it returns,
the error class/code pair it stored (none when no error was written) and
the pin state after the call. -/
structure WPResult where
  status : Bool
  err : Option (ErrorClass × ErrorCode)
  pins : Pins

/-- Binary_Value_Write_Property of bv.c. The external decoder
bacapp_decode_application_data is passed in as its outcome: none stands
for a negative returned length (decode failure), some v for a decoded
value. The handler checks the instance, then the decode outcome, then
dispatches on the property: present-value checks the tag, then the
enumerated value, then attempts the pin write (denied on input rows); the
other known properties and unknown properties check the array index first
and then report access-denied or unknown-property. -/
def Binary_Value_Write_Property (pins : Pins) (wp : WPData)
    (decoded : Option BACnetAppValue) : WPResult :=
  if ¬ Binary_Value_Valid_Instance wp.object_instance then
    ⟨false, some (ErrorClass.object, ErrorCode.unknownObject), pins⟩
  else
    match decoded with
    | none => ⟨false, some (ErrorClass.property, ErrorCode.valueOutOfRange), pins⟩
    | some value =>
      if wp.object_property = PROP_PRESENT_VALUE then
        if value.tag = BACNET_APPLICATION_TAG_ENUMERATED then
          if value.enumerated = BINARY_ACTIVE ∨ value.enumerated = BINARY_INACTIVE then
            let r := Binary_Value_Present_Value_Set pins wp.object_instance value.enumerated
            if r.1 then ⟨true, none, r.2⟩
            else ⟨false, some (ErrorClass.property, ErrorCode.writeAccessDenied), r.2⟩
          else ⟨false, some (ErrorClass.property, ErrorCode.valueOutOfRange), pins⟩
        else ⟨false, some (ErrorClass.property, ErrorCode.invalidDataType), pins⟩
      else if wp.object_property = PROP_OUT_OF_SERVICE ∨
              wp.object_property = PROP_OBJECT_IDENTIFIER ∨
              wp.object_property = PROP_OBJECT_NAME ∨
              wp.object_property = PROP_OBJECT_TYPE ∨
              wp.object_property = PROP_STATUS_FLAGS ∨
              wp.object_property = PROP_EVENT_STATE then
        if wp.array_index ≠ BACNET_ARRAY_ALL then
          ⟨false, some (ErrorClass.property, ErrorCode.propertyIsNotAnArray), pins⟩
        else ⟨false, some (ErrorClass.property, ErrorCode.writeAccessDenied), pins⟩
      else
        if wp.array_index ≠ BACNET_ARRAY_ALL then
          ⟨false, some (ErrorClass.property, ErrorCode.propertyIsNotAnArray), pins⟩
        else ⟨false, some (ErrorClass.property, ErrorCode.unknownProperty), pins⟩

/-! ### RS-485 transceiver helpers (src/rs485.cpp) -/

/-- The allowed baud rates of the RS485_Set_Baud_Rate switch. -/
def RS485_Allowed_Bauds : List Nat := [9600, 19200, 38400, 57600, 76800, 115200]

/-- RS485_Set_Baud_Rate: the switch accepts exactly the six listed rates,
stores the accepted rate and returns true; any other value returns false
and keeps the previously configured rate. Returns the bool result together
with the stored rate after the call. -/
def RS485_Set_Baud_Rate (current baud : Nat) : Bool × Nat :=
  if baud = 9600 ∨ baud = 19200 ∨ baud = 38400 ∨ baud = 57600 ∨
     baud = 76800 ∨ baud = 115200 then (true, baud)
  else (false, current)

/-- RS485_Turnaround_Delay: the microsecond delay it requests, 40 bit
times at the configured baud rate with C unsigned long division. -/
def RS485_Turnaround_Delay_us (baud : Nat) : Nat := 40 * 1000000 / baud

/-! ## Theorems -/

/-- Helper: setValue clamps into range whenever the bounds are ordered. -/
theorem setValue_inRange (s : AVState) (v : ℚ) (h : s.min_value ≤ s.max_value) :
    (s.setValue v).inRange := by
  unfold AVState.setValue AVState.inRange
  dsimp only
  split_ifs <;> constructor <;> dsimp only <;> linarith

/-- C1 counterexample: the clamping invariant is not preserved by every
operation. Starting from a freshly constructed Analog Value object
(min 0, max 100), the call setMinValue(200) installs a minimum above the
maximum without validation; the subsequent setValue(150) stores 100, so
the stored present value no longer satisfies min_value ≤ getValue(). -/
theorem C1_counterexample :
    ¬ (((AVState.init.setMinValue 200).setValue 150).min_value
        ≤ ((AVState.init.setMinValue 200).setValue 150).getValue) := by
  decide

/-- C1 amended: for every Analog Value object whose present value lies
between ordered bounds, setValue keeps min_value ≤ getValue() ≤ max_value
(in particular for min 0, max 100, setValue(150) leaves getValue() = 100),
readPin preserves the invariant, and setMinValue and setMaxValue preserve
it whenever the new bound does not cross the opposite bound. -/
theorem C1_clamping (s : AVState) (v min max : ℚ) (raw : ℤ)
    (h : s.inRange) (hmin : min ≤ s.max_value) (hmax : s.min_value ≤ max) :
    (s.setValue v).inRange
      ∧ (s.readPin raw).inRange
      ∧ (s.setMinValue min).inRange
      ∧ (s.setMaxValue max).inRange
      ∧ (AVState.init.setValue 150).getValue = 100 := by
  obtain ⟨h1, h2⟩ := h
  have hord : s.min_value ≤ s.max_value := le_trans h1 h2
  refine ⟨setValue_inRange s v hord, ?_, ?_, ?_, by decide⟩
  · unfold AVState.readPin
    split_ifs
    · exact setValue_inRange s _ hord
    · exact ⟨h1, h2⟩
  · unfold AVState.setMinValue
    dsimp only
    split_ifs with hc
    · exact setValue_inRange _ _ hmin
    · exact ⟨not_lt.mp hc, h2⟩
  · unfold AVState.setMaxValue
    dsimp only
    split_ifs with hc
    · exact setValue_inRange _ _ hmax
    · exact ⟨h1, not_lt.mp hc⟩

/-- C1 witness: the amended clamping theorem applied to the freshly
constructed object with v = 150, a new minimum 50, a new maximum 200 and
raw sample 512. -/
theorem C1_clamping_witness :
    (AVState.init.inRange ∧ (50 : ℚ) ≤ AVState.init.max_value
        ∧ AVState.init.min_value ≤ (200 : ℚ))
      ∧ ((AVState.init.setValue 150).inRange
          ∧ (AVState.init.readPin 512).inRange
          ∧ (AVState.init.setMinValue 50).inRange
          ∧ (AVState.init.setMaxValue 200).inRange
          ∧ (AVState.init.setValue 150).getValue = 100) :=
  ⟨⟨by decide, by decide, by decide⟩,
    C1_clamping AVState.init 150 50 200 512 (by decide) (by decide) (by decide)⟩

/-- C10: for every Binary Value and Analog Value object, setValue records
the present value held immediately before the call as previous_value
(also when the new value equals the old one), and for Analog the stored
new value is the argument clamped to the bounds. -/
theorem C10_previous_value (av : AVState) (bv : BVState) (pins : Pins) (q : ℚ) (b : Nat)
    (h : av.min_value ≤ av.max_value) :
    (av.setValue q).previous_value = av.present_value
      ∧ ((bv.setValue pins b).1).previous_value = bv.present_value
      ∧ (av.setValue q).present_value = Max.max av.min_value (Min.min av.max_value q) := by
  refine ⟨rfl, ?_, ?_⟩
  · unfold BVState.setValue
    dsimp only
    split_ifs <;> rfl
  · unfold AVState.setValue
    dsimp only
    rw [max_def, min_def]
    split_ifs <;> linarith

/-- C10 witness: the previous-value theorem applied to the fresh Analog
Value object, a Binary Value object at ACTIVE with the LED output pin,
pins all low, setValue arguments 150 and ACTIVE. -/
theorem C10_previous_value_witness :
    (AVState.init.min_value ≤ AVState.init.max_value)
      ∧ ((AVState.init.setValue 150).previous_value = AVState.init.present_value
          ∧ (((BVState.mk 1 0 13 1).setValue (fun _ => false) 1).1).previous_value
              = (BVState.mk 1 0 13 1).present_value
          ∧ (AVState.init.setValue 150).present_value
              = Max.max AVState.init.min_value (Min.min AVState.init.max_value 150)) :=
  ⟨by decide,
    C10_previous_value AVState.init (BVState.mk 1 0 13 1) (fun _ => false) 150 1 (by decide)⟩

/-- C2 counterexample: the claimed error precedence places array-index
validity before access-policy validity, but a present-value write to the
input object with instance 0 carrying a well-formed ENUMERATED ACTIVE
payload and the non-whole-value array index 5 is answered with
WRITE_ACCESS_DENIED, not with PROPERTY_IS_NOT_AN_ARRAY: the handler never
checks the array index on the present-value branch. -/
theorem C2_counterexample :
    (5 : Nat) ≠ BACNET_ARRAY_ALL
      ∧ (Binary_Value_Write_Property (fun _ => false) ⟨0, PROP_PRESENT_VALUE, 5⟩
            (some ⟨BACNET_APPLICATION_TAG_ENUMERATED, BINARY_ACTIVE⟩)).err
          = some (ErrorClass.property, ErrorCode.writeAccessDenied)
      ∧ (Binary_Value_Write_Property (fun _ => false) ⟨0, PROP_PRESENT_VALUE, 5⟩
            (some ⟨BACNET_APPLICATION_TAG_ENUMERATED, BINARY_ACTIVE⟩)).err
          ≠ some (ErrorClass.property, ErrorCode.propertyIsNotAnArray) := by
  refine ⟨by decide, ?_, ?_⟩ <;> decide

/-- C2 amended: on write, an invalid instance is reported as
UNKNOWN_OBJECT before anything else; with a valid instance, a payload the
decoder rejects is answered with VALUE_OUT_OF_RANGE (class PROPERTY)
regardless of the requested property and array index, with no
property-specific logic run and the pins untouched; after a successful
decode, a present-value write ignores the array index entirely and checks
tag, then value, then access, while every other property checks the array
index before access-policy or unknown-property reporting. -/
theorem C2_write_error_precedence (pins : Pins) (inst prop idx : Nat) (v : BACnetAppValue)
    (hvalid : Binary_Value_Valid_Instance inst = true) :
    (∀ inst2 prop2 idx2 d, Binary_Value_Valid_Instance inst2 = false →
        Binary_Value_Write_Property pins ⟨inst2, prop2, idx2⟩ d
          = ⟨false, some (ErrorClass.object, ErrorCode.unknownObject), pins⟩)
      ∧ Binary_Value_Write_Property pins ⟨inst, prop, idx⟩ none
          = ⟨false, some (ErrorClass.property, ErrorCode.valueOutOfRange), pins⟩
      ∧ Binary_Value_Write_Property pins ⟨inst, PROP_PRESENT_VALUE, idx⟩ (some v)
          = Binary_Value_Write_Property pins ⟨inst, PROP_PRESENT_VALUE, BACNET_ARRAY_ALL⟩ (some v)
      ∧ (prop ≠ PROP_PRESENT_VALUE → idx ≠ BACNET_ARRAY_ALL →
          Binary_Value_Write_Property pins ⟨inst, prop, idx⟩ (some v)
            = ⟨false, some (ErrorClass.property, ErrorCode.propertyIsNotAnArray), pins⟩) := by
  refine ⟨?_, ?_, ?_, ?_⟩
  · intro inst2 prop2 idx2 d hinv
    unfold Binary_Value_Write_Property
    rw [hinv]
    simp
  · unfold Binary_Value_Write_Property
    rw [hvalid]
    simp
  · unfold Binary_Value_Write_Property
    rw [hvalid]
    simp
  · intro hprop hidx
    unfold Binary_Value_Write_Property
    rw [hvalid]
    simp [hprop, hidx]

/-- C2 witness: the precedence theorem applied at instance 0 (a valid
instance), property 85, array index 5 and an ENUMERATED ACTIVE payload. -/
theorem C2_write_error_precedence_witness :
    Binary_Value_Valid_Instance 0 = true
      ∧ ((∀ inst2 prop2 idx2 d, Binary_Value_Valid_Instance inst2 = false →
            Binary_Value_Write_Property (fun _ => false) ⟨inst2, prop2, idx2⟩ d
              = ⟨false, some (ErrorClass.object, ErrorCode.unknownObject), fun _ => false⟩)
          ∧ Binary_Value_Write_Property (fun _ => false) ⟨0, 85, 5⟩ none
              = ⟨false, some (ErrorClass.property, ErrorCode.valueOutOfRange), fun _ => false⟩
          ∧ Binary_Value_Write_Property (fun _ => false) ⟨0, PROP_PRESENT_VALUE, 5⟩
                (some ⟨BACNET_APPLICATION_TAG_ENUMERATED, BINARY_ACTIVE⟩)
              = Binary_Value_Write_Property (fun _ => false)
                  ⟨0, PROP_PRESENT_VALUE, BACNET_ARRAY_ALL⟩
                  (some ⟨BACNET_APPLICATION_TAG_ENUMERATED, BINARY_ACTIVE⟩)
          ∧ ((85 : Nat) ≠ PROP_PRESENT_VALUE → (5 : Nat) ≠ BACNET_ARRAY_ALL →
              Binary_Value_Write_Property (fun _ => false) ⟨0, 85, 5⟩
                  (some ⟨BACNET_APPLICATION_TAG_ENUMERATED, BINARY_ACTIVE⟩)
                = ⟨false, some (ErrorClass.property, ErrorCode.propertyIsNotAnArray),
                    fun _ => false⟩)) :=
  ⟨by decide,
    C2_write_error_precedence (fun _ => false) 0 85 5
      ⟨BACNET_APPLICATION_TAG_ENUMERATED, BINARY_ACTIVE⟩ (by decide)⟩

/-- C3: a present-value write to a valid Binary Value instance whose
decoded payload carries a tag other than ENUMERATED fails with
INVALID_DATA_TYPE; with the ENUMERATED tag but a value that is neither
BINARY_ACTIVE nor BINARY_INACTIVE it fails with VALUE_OUT_OF_RANGE. -/
theorem C3_present_value_tag_check (pins : Pins) (inst idx : Nat) (v : BACnetAppValue)
    (hvalid : Binary_Value_Valid_Instance inst = true) :
    (v.tag ≠ BACNET_APPLICATION_TAG_ENUMERATED →
        Binary_Value_Write_Property pins ⟨inst, PROP_PRESENT_VALUE, idx⟩ (some v)
          = ⟨false, some (ErrorClass.property, ErrorCode.invalidDataType), pins⟩)
      ∧ (v.tag = BACNET_APPLICATION_TAG_ENUMERATED →
          v.enumerated ≠ BINARY_ACTIVE → v.enumerated ≠ BINARY_INACTIVE →
          Binary_Value_Write_Property pins ⟨inst, PROP_PRESENT_VALUE, idx⟩ (some v)
            = ⟨false, some (ErrorClass.property, ErrorCode.valueOutOfRange), pins⟩) := by
  constructor
  · intro htag
    unfold Binary_Value_Write_Property
    rw [hvalid]
    simp [htag]
  · intro htag hact hinact
    unfold Binary_Value_Write_Property
    rw [hvalid]
    simp [htag, hact, hinact]

/-- C3 witness: the tag-check theorem applied at instance 0 with a
REAL-tagged payload (tag 4) whose union member reads as 7. -/
theorem C3_present_value_tag_check_witness :
    Binary_Value_Valid_Instance 0 = true
      ∧ (((4 : Nat) ≠ BACNET_APPLICATION_TAG_ENUMERATED →
            Binary_Value_Write_Property (fun _ => false) ⟨0, PROP_PRESENT_VALUE, BACNET_ARRAY_ALL⟩
                (some ⟨4, 7⟩)
              = ⟨false, some (ErrorClass.property, ErrorCode.invalidDataType), fun _ => false⟩)
          ∧ ((4 : Nat) = BACNET_APPLICATION_TAG_ENUMERATED →
              (7 : Nat) ≠ BINARY_ACTIVE → (7 : Nat) ≠ BINARY_INACTIVE →
              Binary_Value_Write_Property (fun _ => false) ⟨0, PROP_PRESENT_VALUE, BACNET_ARRAY_ALL⟩
                  (some ⟨4, 7⟩)
                = ⟨false, some (ErrorClass.property, ErrorCode.valueOutOfRange),
                    fun _ => false⟩)) :=
  ⟨by decide,
    C3_present_value_tag_check (fun _ => false) 0 BACNET_ARRAY_ALL ⟨4, 7⟩ (by decide)⟩

/-- C4: a present-value write with a well-formed ENUMERATED active or
inactive payload addressed to a Binary Value row configured as input
(is_output false) returns false with WRITE_ACCESS_DENIED, performs no pin
write, and leaves the present value read back for that instance
unchanged. -/
theorem C4_input_object_write_denied (pins : Pins) (inst idx ev : Nat) (o : ObjectData)
    (ho : Object_List_Element inst = some o) (hin : o.is_output = false)
    (hev : ev = BINARY_ACTIVE ∨ ev = BINARY_INACTIVE) :
    Binary_Value_Write_Property pins ⟨inst, PROP_PRESENT_VALUE, idx⟩
        (some ⟨BACNET_APPLICATION_TAG_ENUMERATED, ev⟩)
      = ⟨false, some (ErrorClass.property, ErrorCode.writeAccessDenied), pins⟩ := by
  unfold Binary_Value_Write_Property Binary_Value_Valid_Instance
  rw [ho]
  simp only [Option.isSome_some, Bool.not_true, Bool.false_eq_true, if_false]
  unfold Binary_Value_Present_Value_Set
  rw [ho]
  simp [hin, hev]

/-- C4 witness: the denied-write theorem applied to the input row with
instance 0 (pin D3) and the ACTIVE payload; the read-back present value is
unchanged because the pin map is returned untouched. -/
theorem C4_input_object_write_denied_witness :
    (Object_List_Element 0 = some ⟨0, "D3", 3, false⟩
        ∧ (ObjectData.mk 0 "D3" 3 false).is_output = false
        ∧ ((1 : Nat) = BINARY_ACTIVE ∨ (1 : Nat) = BINARY_INACTIVE))
      ∧ Binary_Value_Write_Property (fun _ => false) ⟨0, PROP_PRESENT_VALUE, BACNET_ARRAY_ALL⟩
            (some ⟨BACNET_APPLICATION_TAG_ENUMERATED, 1⟩)
          = ⟨false, some (ErrorClass.property, ErrorCode.writeAccessDenied), fun _ => false⟩ :=
  ⟨⟨by decide, by decide, by decide⟩,
    C4_input_object_write_denied (fun _ => false) 0 BACNET_ARRAY_ALL 1 ⟨0, "D3", 3, false⟩
      (by decide) (by decide) (by decide)⟩

/-- C5: addObject returns false and leaves the table unchanged on a null
pointer or a full table, and otherwise returns true and appends the
object after all previously added ones. -/
theorem C5_addObject_bounds (cap : Nat) (objs : List ObjRef) (p : Option ObjRef) :
    addObject cap objs none = (false, objs)
      ∧ (objs.length ≥ cap → addObject cap objs p = (false, objs))
      ∧ (∀ o2, p = some o2 → objs.length < cap →
          addObject cap objs p = (true, objs ++ [o2])) := by
  refine ⟨rfl, ?_, ?_⟩
  · intro hful
    cases p with
    | none => rfl
    | some o2 =>
      show (if objs.length ≥ cap then (false, objs) else (true, objs ++ [o2])) = (false, objs)
      rw [if_pos hful]
  · intro o2 hp hlt
    subst hp
    show (if objs.length ≥ cap then (false, objs) else (true, objs ++ [o2]))
      = (true, objs ++ [o2])
    rw [if_neg (not_le.mpr hlt)]

/-- C5 witness: a table of two objects at capacity 2 rejects a third
object and stays unchanged. -/
theorem C5_addObject_bounds_witness :
    ([⟨10, 1⟩, ⟨20, 2⟩] : List ObjRef).length ≥ 2
      ∧ addObject 2 [⟨10, 1⟩, ⟨20, 2⟩] (some ⟨30, 3⟩) = (false, [⟨10, 1⟩, ⟨20, 2⟩]) :=
  ⟨by decide, (C5_addObject_bounds 2 [⟨10, 1⟩, ⟨20, 2⟩] (some ⟨30, 3⟩)).2.1 (by decide)⟩

/-- C6: removeObject drops the first entry equal to the argument and
shifts the later entries down so the table stays contiguous, is a no-op
when the argument is absent (or null), and the capacity-2 scenario add A,
add B, add C fails, remove A, add C succeeds runs as specified, ending
with the object of instance 3 at index 1. -/
theorem C6_remove_compacts (objs : List ObjRef) (o : ObjRef) :
    removeObject objs none = objs
      ∧ (o ∉ objs → removeObject objs (some o) = objs)
      ∧ (∀ l1 l2, objs = l1 ++ o :: l2 → o ∉ l1 → removeObject objs (some o) = l1 ++ l2)
      ∧ (addObject 2 [] (some ⟨10, 1⟩) = (true, [⟨10, 1⟩])
          ∧ addObject 2 [⟨10, 1⟩] (some ⟨20, 2⟩) = (true, [⟨10, 1⟩, ⟨20, 2⟩])
          ∧ addObject 2 [⟨10, 1⟩, ⟨20, 2⟩] (some ⟨30, 3⟩) = (false, [⟨10, 1⟩, ⟨20, 2⟩])
          ∧ removeObject [⟨10, 1⟩, ⟨20, 2⟩] (some ⟨10, 1⟩) = [⟨20, 2⟩]
          ∧ addObject 2 [⟨20, 2⟩] (some ⟨30, 3⟩) = (true, [⟨20, 2⟩, ⟨30, 3⟩])
          ∧ instance_to_index [⟨20, 2⟩, ⟨30, 3⟩] 3 = some 1) := by
  have hnm : ∀ (l : List ObjRef), o ∉ l → eraseFirstObj l o = l := by
    intro l
    induction l with
    | nil => intro _; rfl
    | cons x xs ih =>
      intro hl
      simp only [List.mem_cons, not_or] at hl
      unfold eraseFirstObj
      rw [if_neg (fun h => hl.1 h.symm), ih hl.2]
  have hsp : ∀ (l1 l2 : List ObjRef), o ∉ l1 →
      eraseFirstObj (l1 ++ o :: l2) o = l1 ++ l2 := by
    intro l1
    induction l1 with
    | nil => intro l2 _; simp [eraseFirstObj]
    | cons x xs ih =>
      intro l2 hx
      simp only [List.mem_cons, not_or] at hx
      show eraseFirstObj (x :: (xs ++ o :: l2)) o = x :: (xs ++ l2)
      unfold eraseFirstObj
      rw [if_neg (fun h => hx.1 h.symm), ih l2 hx.2]
  refine ⟨rfl, fun ha => hnm objs ha, ?_, by decide, by decide, by decide, by decide,
    by decide, by decide⟩
  intro l1 l2 hobjs hl1
  subst hobjs
  exact hsp l1 l2 hl1

/-- C6 witness: the compaction theorem applied to the table holding A then
B, removing A: the remaining entry B shifts to index 0. -/
theorem C6_remove_compacts_witness :
    (([⟨10, 1⟩, ⟨20, 2⟩] : List ObjRef) = [] ++ (⟨10, 1⟩ : ObjRef) :: [⟨20, 2⟩]
        ∧ (⟨10, 1⟩ : ObjRef) ∉ ([] : List ObjRef))
      ∧ removeObject [⟨10, 1⟩, ⟨20, 2⟩] (some ⟨10, 1⟩) = [] ++ [⟨20, 2⟩] :=
  ⟨⟨by decide, by decide⟩,
    (C6_remove_compacts [⟨10, 1⟩, ⟨20, 2⟩] ⟨10, 1⟩).2.2.1 [] [⟨20, 2⟩] (by decide) (by decide)⟩

/-- C7: the turnaround delay is the truncation of 40 bit times at the
configured baud rate (characterised by the two division bounds), and at
baud 38400 it computes 1041 microseconds, within one microsecond of the
1042 named by the spec scenario. -/
theorem C7_turnaround_delay (baud : Nat) (h : 0 < baud) :
    baud * RS485_Turnaround_Delay_us baud ≤ 40 * 1000000
      ∧ 40 * 1000000 < baud * (RS485_Turnaround_Delay_us baud + 1)
      ∧ RS485_Turnaround_Delay_us 38400 = 1041
      ∧ 1042 - RS485_Turnaround_Delay_us 38400 ≤ 1 := by
  have hmod := Nat.mod_lt (40 * 1000000) h
  unfold RS485_Turnaround_Delay_us
  refine ⟨?_, ?_, by decide, by decide⟩
  · calc baud * (40 * 1000000 / baud) = 40 * 1000000 / baud * baud := Nat.mul_comm _ _
      _ ≤ 40 * 1000000 := Nat.div_mul_le_self _ _
  · calc 40 * 1000000
        = baud * (40 * 1000000 / baud) + 40 * 1000000 % baud := (Nat.div_add_mod _ _).symm
      _ < baud * (40 * 1000000 / baud) + baud := Nat.add_lt_add_left hmod _
      _ = baud * (40 * 1000000 / baud + 1) := by ring

/-- C7 witness: the delay characterisation applied at baud 38400. -/
theorem C7_turnaround_delay_witness :
    0 < 38400
      ∧ (38400 * RS485_Turnaround_Delay_us 38400 ≤ 40 * 1000000
          ∧ 40 * 1000000 < 38400 * (RS485_Turnaround_Delay_us 38400 + 1)
          ∧ RS485_Turnaround_Delay_us 38400 = 1041
          ∧ 1042 - RS485_Turnaround_Delay_us 38400 ≤ 1) :=
  ⟨by decide, C7_turnaround_delay 38400 (by decide)⟩

/-- C8: RS485_Set_Baud_Rate succeeds exactly on the six allowed rates, in
which case the new rate is stored; any other value fails and the
previously configured rate is retained. -/
theorem C8_set_baud_rate (current baud : Nat) :
    ((RS485_Set_Baud_Rate current baud).1 = true ↔ baud ∈ RS485_Allowed_Bauds)
      ∧ (RS485_Set_Baud_Rate current baud).2
          = (if baud ∈ RS485_Allowed_Bauds then baud else current) := by
  have hmem : baud ∈ RS485_Allowed_Bauds ↔
      (baud = 9600 ∨ baud = 19200 ∨ baud = 38400 ∨ baud = 57600 ∨
        baud = 76800 ∨ baud = 115200) := by
    simp [RS485_Allowed_Bauds]
  constructor
  · unfold RS485_Set_Baud_Rate
    rw [hmem]
    split_ifs with hc <;> simp [hc]
  · unfold RS485_Set_Baud_Rate
    by_cases hc : baud ∈ RS485_Allowed_Bauds
    · rw [if_pos (hmem.mp hc), if_pos hc]
    · rw [if_neg (fun hd => hc (hmem.mpr hd)), if_neg hc]

/-- C9: getObjectType returns 2 for Analog Value and 5 for Binary Value
objects, while isObjectTypeAvailable routes code 2 to the Analog-Output
flag and code 5 to the Binary-Output flag; both flags are off on Tier 1
although the Analog-Value and Binary-Value flags themselves are on for
every tier, so on Tier 1 the availability check reports false for every
Analog Value and Binary Value object. -/
theorem C9_tier1_type_code_mismatch :
    (∀ s : AVState, s.getObjectType = 2)
      ∧ (∀ s : BVState, s.getObjectType = 5)
      ∧ (∀ tier, isObjectTypeAvailable tier 2 = BACNET_OBJECT_ANALOG_OUTPUT tier)
      ∧ (∀ tier, isObjectTypeAvailable tier 5 = BACNET_OBJECT_BINARY_OUTPUT tier)
      ∧ (∀ tier, BACNET_OBJECT_ANALOG_VALUE tier = true
          ∧ BACNET_OBJECT_BINARY_VALUE tier = true)
      ∧ (∀ s : AVState, isObjectTypeAvailable 1 s.getObjectType = false)
      ∧ (∀ s : BVState, isObjectTypeAvailable 1 s.getObjectType = false) :=
  ⟨fun _ => rfl, fun _ => rfl, fun _ => rfl, fun _ => rfl, fun _ => ⟨rfl, rfl⟩,
    fun _ => rfl, fun _ => rfl⟩

end BACnetArduino
